import Mathlib

/-!
Verification of the artwork-upload and admin-panel workflow of the
ArtistPortfolio repository, shallowly embedded from
`src/client/src/components/Admin/ArtworkUpload.tsx` and
`src/client/src/components/About/AboutSection.tsx` (the `AdminPanel`
component).

State is passed explicitly; side effects (toasts, network calls, cache
invalidations) are collected as explicit effect lists so that theorems
can speak about "no network call" or "exactly one invalidation".
-/

namespace ArtistPortfolio

/-- A candidate upload file as the browser exposes it: name, byte size,
declared MIME type. -/
structure UploadFile where
  name : String
  size : Nat
  type : String
deriving DecidableEq, Repr

/-- A transient notification, as produced by `useToast`.  `destructive`
mirrors `variant: "destructive"`. -/
structure Toast where
  title : String
  description : String
  destructive : Bool
deriving DecidableEq, Repr

/-- One part of a multipart `FormData` body. -/
inductive FormPart where
  | filePart (name : String) (file : UploadFile)
  | textPart (name : String) (value : String)
deriving DecidableEq, Repr

/-- The name under which a part is appended to the `FormData`. -/
def FormPart.partName : FormPart → String
  | .filePart n _ => n
  | .textPart n _ => n

/-- An observable side effect of the upload-form controller. -/
inductive Effect where
  | toast (t : Toast)
  | networkPost (path : String) (payload : List FormPart)
  | invalidate (queryKey : String)
deriving DecidableEq, Repr

/-- Whether an effect is a network call. -/
def Effect.isNetworkPost : Effect → Bool
  | .networkPost _ _ => true
  | _ => false

/-- Number of cache invalidations for a given query key in an effect list. -/
def invalidationCount (effects : List Effect) (key : String) : Nat :=
  (effects.filter fun e =>
    match e with
    | .invalidate k => k = key
    | _ => false).length

/-- The `availability` enumeration of `artworkUploadSchema`
(`z.enum(["available", "sold", "not-for-sale"])`). -/
inductive Availability where
  | available
  | sold
  | notForSale
deriving DecidableEq, Repr

/-- String form of an availability value, as sent over the wire. -/
def availabilityToString : Availability → String
  | .available => "available"
  | .sold => "sold"
  | .notForSale => "not-for-sale"

/-- Parse the enum; `none` models a string outside the three values. -/
def availabilityOfString (s : String) : Option Availability :=
  if s = "available" then some .available
  else if s = "sold" then some .sold
  else if s = "not-for-sale" then some .notForSale
  else none

/-- Raw form field values before validation.  `year = none` models a
non-numeric entry (`parseInt` yielding `NaN`); `none` in the optional
fields models an absent (`undefined`) value. -/
structure RawForm where
  title : String
  year : Option Int
  medium : String
  size : String
  description : Option String
  availability : String
  tags : Option String
  featured : Option Bool
deriving DecidableEq, Repr

/-- A validated artwork submission, the `z.infer` of `artworkUploadSchema`. -/
structure ArtworkUploadData where
  title : String
  year : Int
  medium : String
  size : String
  description : Option String
  availability : Availability
  tags : Option String
  featured : Bool
deriving DecidableEq, Repr

/-- JavaScript truthiness of an optional string: `undefined` and `""`
are falsy, everything else is truthy. -/
def strTruthy : Option String → Bool
  | none => false
  | some s => s ≠ ""

/-- Whether the `year` field violates `z.number().min(1900).max(2030)`;
`none` (non-numeric) always fails. -/
def yearInvalid : Option Int → Bool
  | none => true
  | some y => y < 1900 || y > 2030

/-- The field names `artworkUploadSchema` reports errors on, in schema
order.  Empty list means the raw values validate. -/
def fieldErrors (r : RawForm) : List String :=
  (if r.title = "" then ["title"] else []) ++
  (if yearInvalid r.year then ["year"] else []) ++
  (if r.medium = "" then ["medium"] else []) ++
  (if r.size = "" then ["size"] else []) ++
  (if (availabilityOfString r.availability).isNone then ["availability"] else [])

/-- `artworkUploadSchema` parsing: either the list of failing fields or
the validated record.  `featured` defaults to `false` when absent
(`z.boolean().default(false)`); `description` and `tags` are optional. -/
def artworkUploadParse (r : RawForm) : Except (List String) ArtworkUploadData :=
  match fieldErrors r with
  | [] =>
      match availabilityOfString r.availability with
      | some a =>
          .ok { title := r.title, year := r.year.getD 0, medium := r.medium,
                size := r.size, description := r.description, availability := a,
                tags := r.tags, featured := r.featured.getD false }
      | none => .error ["availability"]
  | e :: es => .error (e :: es)

/-- The `defaultValues` passed to `useForm` (line 35-44 of
`ArtworkUpload.tsx`); `currentYear` stands for
`new Date().getFullYear()`. -/
def defaultValues (currentYear : Int) : RawForm :=
  { title := "", year := some currentYear, medium := "", size := "",
    description := some "", availability := "available", tags := some "",
    featured := some false }

/-- Transient state of one `ArtworkUpload` component instance.
`mountYear` is the year captured when `useForm` ran; `form.reset()`
restores `defaultValues mountYear`. -/
structure ControllerState where
  selectedFile : Option UploadFile
  dragOver : Bool
  fields : RawForm
  mountYear : Int
deriving DecidableEq, Repr

/-- Fresh component state. -/
def initialState (currentYear : Int) : ControllerState :=
  { selectedFile := none, dragOver := false,
    fields := defaultValues currentYear, mountYear := currentYear }

/-- The "Image required" toast of `onSubmit`. -/
def missingImageToast : Toast :=
  { title := "Image required", description := "Please select an image file.",
    destructive := true }

/-- The "File too large" toast of `handleFileSelect`. -/
def fileTooLargeToast : Toast :=
  { title := "File too large",
    description := "Please select an image smaller than 10MB.",
    destructive := true }

/-- The "Invalid file type" toast of `handleFileSelect`. -/
def invalidFileTypeToast : Toast :=
  { title := "Invalid file type", description := "Please select an image file.",
    destructive := true }

/-- The success toast of `uploadMutation.onSuccess`. -/
def successToast : Toast :=
  { title := "Success!", description := "Artwork uploaded successfully.",
    destructive := false }

/-- `file.type.startsWith('image/')` of the source: a string prefix
test, taken on the character list so it is executable. -/
def startsWithImage (t : String) : Bool :=
  "image/".data.isPrefixOf t.data

/-- `handleFileSelect` (lines 104-124): reject files over
`10 * 1024 * 1024` bytes, then files whose declared type does not start
with `image/`; otherwise store the file. -/
def handleFileSelect (st : ControllerState) (file : UploadFile) :
    ControllerState × List Effect :=
  if file.size > 10 * 1024 * 1024 then
    (st, [.toast fileTooLargeToast])
  else if !(startsWithImage file.type) then
    (st, [.toast invalidFileTypeToast])
  else
    ({ st with selectedFile := some file }, [])

/-- The multipart body built in `uploadMutation.mutationFn`
(lines 49-58): image binary, then the scalar fields as text, with
`description` and `tags` appended only when truthy, and `year` /
`featured` stringified. -/
def buildFormData (data : ArtworkUploadData) (image : UploadFile) :
    List FormPart :=
  [.filePart "image" image,
   .textPart "title" data.title,
   .textPart "year" (toString data.year),
   .textPart "medium" data.medium,
   .textPart "size" data.size] ++
  (if strTruthy data.description then
    [.textPart "description" (data.description.getD "")] else []) ++
  [.textPart "availability" (availabilityToString data.availability)] ++
  (if strTruthy data.tags then
    [.textPart "tags" (data.tags.getD "")] else []) ++
  [.textPart "featured" (if data.featured then "true" else "false")]

/-- `onSubmit` (lines 91-102): without a selected file it toasts "Image
required" and returns; otherwise it starts the mutation, whose
`mutationFn` posts the multipart body to `/api/admin/paintings`. -/
def onSubmit (st : ControllerState) (data : ArtworkUploadData) :
    ControllerState × List Effect :=
  match st.selectedFile with
  | none => (st, [.toast missingImageToast])
  | some file =>
      (st, [.networkPost "/api/admin/paintings" (buildFormData data file)])

/-- `form.handleSubmit(onSubmit)`: the zod resolver runs first; on
validation failure the field errors are shown inline and `onSubmit` is
never called, so no effect is emitted. -/
def handleSubmitPipeline (st : ControllerState) : ControllerState × List Effect :=
  match artworkUploadParse st.fields with
  | .error _ => (st, [])
  | .ok data => onSubmit st data

/-- A server response to the upload POST.  `errResp m` is a non-success
status whose JSON body has `message = m` (`none` models an absent
field). -/
inductive ServerResponse where
  | okResp (body : String)
  | errResp (message : Option String)
deriving DecidableEq, Repr

/-- `error.message || 'Upload failed'` (line 68): JavaScript `||`
falls back when the field is absent or the empty string. -/
def responseMessage : Option String → String
  | none => "Upload failed"
  | some s => if s = "" then "Upload failed" else s

/-- `uploadMutation.onSuccess` (lines 73-81): success toast, reset the
form to its defaults, clear the selected file, invalidate the
`"/api/paintings"` query. -/
def onSuccess (st : ControllerState) : ControllerState × List Effect :=
  ({ st with fields := defaultValues st.mountYear, selectedFile := none },
   [.toast successToast, .invalidate "/api/paintings"])

/-- `uploadMutation.onError` (lines 82-88): destructive toast with the
error message; no state change. -/
def onError (st : ControllerState) (msg : String) :
    ControllerState × List Effect :=
  (st, [.toast { title := "Upload failed", description := msg,
                 destructive := true }])

/-- Settling one submission against the server's response: `mutationFn`
throws on a non-ok status with `error.message || 'Upload failed'`,
routing to `onError`; otherwise `onSuccess` runs. -/
def handleResponse (st : ControllerState) (resp : ServerResponse) :
    ControllerState × List Effect :=
  match resp with
  | .okResp _ => onSuccess st
  | .errResp m => onError st (responseMessage m)

/-- A contact message record as rendered by the admin panel. -/
structure ContactMessage where
  id : Nat
  name : String
  email : String
  subject : String
  message : String
  createdAt : Nat
deriving DecidableEq, Repr

/-- What the messages card shows. -/
inductive MessagesView where
  | emptyState
  | shown (msgs : List ContactMessage)
deriving DecidableEq, Repr

/-- The messages card of `AdminPanel` (lines 155-172 of
`AboutSection.tsx`): empty state at zero, otherwise
`messages.slice(0, 5)` rendered in server order — no sorting. -/
def renderMessages (messages : List ContactMessage) : MessagesView :=
  if messages.length = 0 then .emptyState else .shown (messages.take 5)

/-- Insert into a list kept in descending `createdAt` order. -/
def insertDesc (m : ContactMessage) : List ContactMessage → List ContactMessage
  | [] => [m]
  | x :: xs =>
      if x.createdAt ≤ m.createdAt then m :: x :: xs else x :: insertDesc m xs

/-- Sort messages by `createdAt` descending (insertion sort). -/
def sortByCreatedAtDesc : List ContactMessage → List ContactMessage
  | [] => []
  | x :: xs => insertDesc x (sortByCreatedAtDesc xs)

/-- Modelled from the spec: "shows at most 5 most-recent messages
(sorted by `createdAt` descending, ... else the controller must sort
before truncating)".  This is the spec's words, for comparison with
`renderMessages`, which is what the code does. -/
def renderMessagesSpec (messages : List ContactMessage) : MessagesView :=
  if messages.length = 0 then .emptyState
  else .shown ((sortByCreatedAtDesc messages).take 5)

/-- State of the `AdminPanel` component: its `isOpen` `useState` and the
`isAuthenticated` signal from `useAuth`. -/
structure AdminPanelState where
  isOpen : Bool
  isAuthenticated : Bool
deriving DecidableEq, Repr

/-- The `handleOpenAdmin` listener for the app-wide `openAdminPanel`
event (lines 78-87): opens the panel only when authenticated. -/
def handleOpenAdmin (st : AdminPanelState) : AdminPanelState :=
  if st.isAuthenticated then { st with isOpen := true } else st

/-- What one render of `AdminPanel` produces when it is not `null`. -/
structure PanelView where
  dialogOpen : Bool
  messagesCard : MessagesView
deriving DecidableEq, Repr

/-- Rendering `AdminPanel` (lines 89-179): `null` when the session is
not authenticated, checked on every render. -/
def renderPanel (st : AdminPanelState) (messages : List ContactMessage) :
    Option PanelView :=
  if st.isAuthenticated then
    some { dialogOpen := st.isOpen, messagesCard := renderMessages messages }
  else
    none

/-- The `enabled` precondition shared by both `useQuery` calls
(lines 68-76): `isAuthenticated && isOpen`. -/
def queriesEnabled (st : AdminPanelState) : Bool :=
  st.isAuthenticated && st.isOpen

/-- The GET requests the panel's queries issue in a given state: none
unless the `enabled` precondition holds. -/
def issuedFetches (st : AdminPanelState) : List String :=
  if queriesEnabled st then ["/api/paintings", "/api/admin/messages"] else []

/-- Events driving one `uploadMutation` instance: a press of the submit
button, or a pending mutation settling (success or error). -/
inductive SubmitEvent where
  | click
  | settled
deriving DecidableEq, Repr

/-- The mutation's flight state: `isPending` is
`uploadMutation.isPending`; `inFlight` counts requests on the wire. -/
structure MutationState where
  isPending : Bool
  inFlight : Nat
deriving DecidableEq, Repr

/-- Before any submission. -/
def mutationInit : MutationState := { isPending := false, inFlight := 0 }

/-- One step of the submission machine.  The submit button carries
`disabled={uploadMutation.isPending}` (line 337), so a click while a
mutation is pending submits nothing; an enabled click starts one
request.  `settled` finishes the pending request. -/
def submitStep (st : MutationState) : SubmitEvent → MutationState
  | .click =>
      if st.isPending then st
      else { isPending := true, inFlight := st.inFlight + 1 }
  | .settled =>
      if st.isPending then { isPending := false, inFlight := st.inFlight - 1 }
      else st

/-- Run a sequence of events from the initial state. -/
def runSubmits (events : List SubmitEvent) : MutationState :=
  events.foldl submitStep mutationInit

/-! ### Concrete fixtures used by witnesses and counterexamples -/

/-- A validated record as the form produces it with default optional
fields (empty strings). -/
def sampleData : ArtworkUploadData :=
  { title := "Untitled", year := 2025, medium := "Oil", size := "50x50",
    description := some "", availability := .available, tags := some "",
    featured := false }

/-- A validated record with a non-empty description and empty tags. -/
def describedData : ArtworkUploadData :=
  { title := "Untitled", year := 2025, medium := "Oil", size := "50x50",
    description := some "A study in blue.", availability := .available,
    tags := some "", featured := false }

/-- A 2 MiB JPEG. -/
def sampleImage : UploadFile :=
  { name := "art.jpg", size := 2097152, type := "image/jpeg" }

/-- A 2 MiB PNG. -/
def pngImage : UploadFile :=
  { name := "art.png", size := 2097152, type := "image/png" }

/-- One byte over the 10 MiB limit. -/
def oversizedImage : UploadFile :=
  { name := "big.png", size := 10485761, type := "image/png" }

/-- A small non-image file. -/
def pdfFile : UploadFile :=
  { name := "doc.pdf", size := 100, type := "application/pdf" }

/-- Oversized and also not an image. -/
def oversizedPdf : UploadFile :=
  { name := "big.pdf", size := 20971520, type := "application/pdf" }

/-- A form violating every constrained field at once. -/
def badForm : RawForm :=
  { title := "", year := some 1850, medium := "", size := "",
    description := none, availability := "weird", tags := none,
    featured := none }

/-- Controller state holding `badForm`. -/
def badState : ControllerState :=
  { selectedFile := none, dragOver := false, fields := badForm,
    mountYear := 2025 }

/-- A valid form whose optional fields are all absent. -/
def goodForm : RawForm :=
  { title := "T", year := some 2020, medium := "Oil", size := "1x1",
    description := none, availability := "sold", tags := none,
    featured := none }

/-- Controller state holding `goodForm`. -/
def goodState : ControllerState :=
  { selectedFile := none, dragOver := false, fields := goodForm,
    mountYear := 2025 }

/-- What `artworkUploadParse goodForm` yields. -/
def goodData : ArtworkUploadData :=
  { title := "T", year := 2020, medium := "Oil", size := "1x1",
    description := none, availability := .sold, tags := none,
    featured := false }

/-- Controller state with a file already selected. -/
def selectedState : ControllerState :=
  { selectedFile := some sampleImage, dragOver := false,
    fields := defaultValues 2025, mountYear := 2025 }

/-- Six messages in ascending `createdAt` order, so the server list is
not newest-first. -/
def unsortedMsgs : List ContactMessage :=
  [{ id := 1, name := "a", email := "a@x", subject := "s1", message := "m1", createdAt := 1 },
   { id := 2, name := "b", email := "b@x", subject := "s2", message := "m2", createdAt := 2 },
   { id := 3, name := "c", email := "c@x", subject := "s3", message := "m3", createdAt := 3 },
   { id := 4, name := "d", email := "d@x", subject := "s4", message := "m4", createdAt := 4 },
   { id := 5, name := "e", email := "e@x", subject := "s5", message := "m5", createdAt := 5 },
   { id := 6, name := "f", email := "f@x", subject := "s6", message := "m6", createdAt := 6 }]

/-- Three messages already in descending `createdAt` order. -/
def sortedMsgs : List ContactMessage :=
  [{ id := 3, name := "c", email := "c@x", subject := "s3", message := "m3", createdAt := 30 },
   { id := 2, name := "b", email := "b@x", subject := "s2", message := "m2", createdAt := 20 },
   { id := 1, name := "a", email := "a@x", subject := "s1", message := "m1", createdAt := 10 }]

/-! ### Helper lemmas -/

/-- An invalid year always lands in the error list. -/
lemma year_mem_fieldErrors {r : RawForm} (h : yearInvalid r.year = true) :
    "year" ∈ fieldErrors r := by
  simp [fieldErrors, h]

/-- When validation fails, `handleSubmit` never calls `onSubmit`, so no
effect at all is produced. -/
lemma pipeline_of_errors {st : ControllerState}
    (h : fieldErrors st.fields ≠ []) :
    handleSubmitPipeline st = (st, []) := by
  unfold handleSubmitPipeline artworkUploadParse
  rcases hf : fieldErrors st.fields with _ | ⟨e, es⟩
  · exact absurd hf h
  · simp

/-- Inserting an element at least as recent as everything in the list
puts it in front. -/
lemma insertDesc_of_ge {m : ContactMessage} {l : List ContactMessage}
    (h : ∀ x ∈ l, x.createdAt ≤ m.createdAt) : insertDesc m l = m :: l := by
  cases l with
  | nil => rfl
  | cons x xs => simp [insertDesc, h x (List.mem_cons_self x xs)]

/-- Insertion sort is the identity on a list already sorted by
`createdAt` descending. -/
lemma sortByCreatedAtDesc_of_sorted {l : List ContactMessage}
    (h : List.Pairwise (fun a b => b.createdAt ≤ a.createdAt) l) :
    sortByCreatedAtDesc l = l := by
  induction l with
  | nil => rfl
  | cons x xs ih =>
      rcases List.pairwise_cons.mp h with ⟨hx, hxs⟩
      simp only [sortByCreatedAtDesc, ih hxs]
      exact insertDesc_of_ge hx

/-- The mutation state never records more in-flight requests than the
pending flag says: one step preserves the exact flight count. -/
lemma submitStep_flight (st : MutationState)
    (h : st.inFlight = if st.isPending then 1 else 0) (e : SubmitEvent) :
    (submitStep st e).inFlight =
      if (submitStep st e).isPending then 1 else 0 := by
  cases e <;> cases hp : st.isPending <;>
    simp [submitStep, hp] <;> simp [hp] at h <;> omega

/-- The flight-count invariant holds along any event sequence. -/
lemma foldl_flight (events : List SubmitEvent) :
    ∀ st : MutationState, st.inFlight = (if st.isPending then 1 else 0) →
      (events.foldl submitStep st).inFlight =
        if (events.foldl submitStep st).isPending then 1 else 0 := by
  induction events with
  | nil => intro st h; exact h
  | cons e es ih =>
      intro st h
      exact ih (submitStep st e) (submitStep_flight st h e)

/-! ### Claim theorems -/

/-- Claim C1: when no file is selected, `onSubmit` emits only the
"Image required" toast — no network call — and leaves the controller
state (all form fields and the selected file) unchanged. -/
theorem c1_missing_image_no_network (st : ControllerState)
    (data : ArtworkUploadData) (h : st.selectedFile = none) :
    onSubmit st data = (st, [Effect.toast missingImageToast]) ∧
    ∀ e ∈ (onSubmit st data).2, e.isNetworkPost = false := by
  unfold onSubmit
  rw [h]
  exact ⟨rfl, by intro e he; simp at he; subst he; rfl⟩

/-- Witness for C1 at a fresh controller state. -/
theorem c1_missing_image_no_network_witness :
    onSubmit (initialState 2025) sampleData =
      (initialState 2025, [Effect.toast missingImageToast]) :=
  (c1_missing_image_no_network (initialState 2025) sampleData rfl).1

/-- Claim C2: `handleFileSelect` rejects files over 10 MiB with the
"File too large" toast and files that pass the size check but whose type
lacks the `image/` prefix with the "Invalid file type" toast, keeping
the state (hence `selectedFile`) unchanged in both cases; a file passing
both checks replaces `selectedFile`. -/
theorem c2_select_file (st : ControllerState) (file : UploadFile) :
    (file.size > 10 * 1024 * 1024 →
      handleFileSelect st file = (st, [Effect.toast fileTooLargeToast])) ∧
    (file.size ≤ 10 * 1024 * 1024 → startsWithImage file.type = false →
      handleFileSelect st file = (st, [Effect.toast invalidFileTypeToast])) ∧
    (file.size ≤ 10 * 1024 * 1024 → startsWithImage file.type = true →
      handleFileSelect st file = ({ st with selectedFile := some file }, [])) := by
  refine ⟨fun h1 => ?_, fun h1 h2 => ?_, fun h1 h2 => ?_⟩
  · simp [handleFileSelect, h1]
  · simp [handleFileSelect, Nat.not_lt.mpr h1, h2]
  · simp [handleFileSelect, Nat.not_lt.mpr h1, h2]

/-- Witness for C2: an oversized PNG is rejected for size, a small PDF
for type, and a small JPEG is stored. -/
theorem c2_select_file_witness :
    handleFileSelect (initialState 2025) oversizedImage =
      (initialState 2025, [Effect.toast fileTooLargeToast]) ∧
    handleFileSelect (initialState 2025) pdfFile =
      (initialState 2025, [Effect.toast invalidFileTypeToast]) ∧
    handleFileSelect (initialState 2025) sampleImage =
      ({ initialState 2025 with selectedFile := some sampleImage }, []) :=
  ⟨(c2_select_file (initialState 2025) oversizedImage).1 (by decide),
   (c2_select_file (initialState 2025) pdfFile).2.1 (by decide) (by decide),
   (c2_select_file (initialState 2025) sampleImage).2.2 (by decide) (by decide)⟩

/-- Claim C10: a file that is both oversized and not an image is
rejected with the "File too large" toast, which differs from the
"Invalid file type" toast — the size check runs first. -/
theorem c10_size_checked_before_type (st : ControllerState)
    (file : UploadFile) (hsize : file.size > 10 * 1024 * 1024)
    (_htype : startsWithImage file.type = false) :
    handleFileSelect st file = (st, [Effect.toast fileTooLargeToast]) ∧
    fileTooLargeToast ≠ invalidFileTypeToast := by
  refine ⟨by simp [handleFileSelect, hsize], by decide⟩

/-- Witness for C10 at a 20 MiB PDF. -/
theorem c10_size_checked_before_type_witness :
    handleFileSelect (initialState 2025) oversizedPdf =
      (initialState 2025, [Effect.toast fileTooLargeToast]) ∧
    fileTooLargeToast ≠ invalidFileTypeToast :=
  c10_size_checked_before_type (initialState 2025) oversizedPdf
    (by decide) (by decide)

/-- Claim C3: an unauthenticated render of `AdminPanel` is `null`; the
`openAdminPanel` signal leaves `isOpen` unchanged while unauthenticated;
and the two list queries issue no fetch unless the session is
authenticated and the panel is open. -/
theorem c3_admin_gating (st : AdminPanelState)
    (messages : List ContactMessage) :
    (st.isAuthenticated = false → renderPanel st messages = none) ∧
    (st.isAuthenticated = false → (handleOpenAdmin st).isOpen = st.isOpen) ∧
    (issuedFetches st ≠ [] →
      st.isAuthenticated = true ∧ st.isOpen = true) := by
  rcases st with ⟨o, a⟩
  cases o <;> cases a <;>
    simp [renderPanel, handleOpenAdmin, issuedFetches, queriesEnabled]

/-- Witness for C3: a closed unauthenticated state renders nothing and
ignores the open signal; an authenticated open state is the only way
fetches are issued. -/
theorem c3_admin_gating_witness :
    renderPanel { isOpen := false, isAuthenticated := false } [] = none ∧
    (handleOpenAdmin { isOpen := false, isAuthenticated := false }).isOpen =
      AdminPanelState.isOpen { isOpen := false, isAuthenticated := false } ∧
    (AdminPanelState.isAuthenticated { isOpen := true, isAuthenticated := true } = true ∧
      AdminPanelState.isOpen { isOpen := true, isAuthenticated := true } = true) :=
  ⟨(c3_admin_gating { isOpen := false, isAuthenticated := false } []).1 rfl,
   (c3_admin_gating { isOpen := false, isAuthenticated := false } []).2.1 rfl,
   (c3_admin_gating { isOpen := true, isAuthenticated := true } []).2.2 (by decide)⟩

/-- Claim C4: settling a successful response resets every form field to
the mount-time defaults, clears `selectedFile`, and invalidates the
`"/api/paintings"` cache key exactly once. -/
theorem c4_success_resets_and_invalidates_once (st : ControllerState)
    (body : String) :
    (handleResponse st (.okResp body)).1.fields = defaultValues st.mountYear ∧
    (handleResponse st (.okResp body)).1.selectedFile = none ∧
    invalidationCount (handleResponse st (.okResp body)).2 "/api/paintings" = 1 := by
  refine ⟨rfl, rfl, rfl⟩

/-- Counterexample to C5: the server reports a non-success status whose
body carries the message field present but empty (`message: ""`).  The
surfaced toast says the generic "Upload failed", not the verbatim
server message `""`, because `error.message || 'Upload failed'` treats
the empty string as absent. -/
theorem c5_counterexample :
    (handleResponse (initialState 2025) (.errResp (some ""))).2 =
      [Effect.toast { title := "Upload failed", description := "Upload failed",
                      destructive := true }] ∧
    ("Upload failed" : String) ≠ "" := by
  exact ⟨rfl, by decide⟩

/-- Claim C5 (amended): on a non-success response the controller state —
form fields and selected file — is preserved unchanged and exactly one
destructive toast is emitted; the toast carries the server's message
verbatim when it is present and non-empty, and the generic
"Upload failed" when the message field is absent or empty; no cache
invalidation happens. -/
theorem c5_error_preserves_state (st : ControllerState) (m : Option String) :
    (handleResponse st (.errResp m)).1 = st ∧
    (∀ s, m = some s → s ≠ "" →
      (handleResponse st (.errResp m)).2 =
        [Effect.toast { title := "Upload failed", description := s,
                        destructive := true }]) ∧
    ((m = none ∨ m = some "") →
      (handleResponse st (.errResp m)).2 =
        [Effect.toast { title := "Upload failed", description := "Upload failed",
                        destructive := true }]) ∧
    invalidationCount (handleResponse st (.errResp m)).2 "/api/paintings" = 0 := by
  refine ⟨rfl, ?_, ?_, rfl⟩
  · intro s hs hne
    subst hs
    simp [handleResponse, onError, responseMessage, hne]
  · rintro (hm | hm) <;> subst hm <;> rfl

/-- Witness for C5 at a server message `"boom"`. -/
theorem c5_error_preserves_state_witness :
    (handleResponse (initialState 2025) (.errResp (some "boom"))).1 =
      initialState 2025 ∧
    (handleResponse (initialState 2025) (.errResp (some "boom"))).2 =
      [Effect.toast { title := "Upload failed", description := "boom",
                      destructive := true }] :=
  ⟨(c5_error_preserves_state (initialState 2025) (some "boom")).1,
   (c5_error_preserves_state (initialState 2025) (some "boom")).2.1 "boom"
     rfl (by decide)⟩

/-- Claim C6: an out-of-range or non-numeric year puts a field-level
error on `year` and the submit pipeline produces no effect (so no
network call); empty `title`, `medium` or `size` and a non-enumerated
`availability` also fail; `description` and `tags` never produce field
errors; and a successfully parsed record with `featured` absent gets
`featured = false`. -/
theorem c6_validation (st : ControllerState) :
    (yearInvalid st.fields.year = true →
      "year" ∈ fieldErrors st.fields ∧ handleSubmitPipeline st = (st, [])) ∧
    (st.fields.title = "" → "title" ∈ fieldErrors st.fields) ∧
    (st.fields.medium = "" → "medium" ∈ fieldErrors st.fields) ∧
    (st.fields.size = "" → "size" ∈ fieldErrors st.fields) ∧
    (availabilityOfString st.fields.availability = none →
      "availability" ∈ fieldErrors st.fields) ∧
    ("description" ∉ fieldErrors st.fields ∧ "tags" ∉ fieldErrors st.fields) ∧
    (∀ d, artworkUploadParse st.fields = .ok d → st.fields.featured = none →
      d.featured = false) := by
  refine ⟨fun hy => ⟨year_mem_fieldErrors hy, ?_⟩, fun h => ?_, fun h => ?_,
    fun h => ?_, fun h => ?_, ⟨?_, ?_⟩, fun d hd hf => ?_⟩
  · refine pipeline_of_errors fun hnil => ?_
    have := year_mem_fieldErrors (r := st.fields) hy
    rw [hnil] at this
    exact absurd this (List.not_mem_nil _)
  · simp [fieldErrors, h]
  · simp [fieldErrors, h]
  · simp [fieldErrors, h]
  · simp [fieldErrors, h]
  · unfold fieldErrors
    split <;> split <;> split <;> split <;> split <;> simp
  · unfold fieldErrors
    split <;> split <;> split <;> split <;> split <;> simp
  · unfold artworkUploadParse at hd
    rcases hferr : fieldErrors st.fields with _ | ⟨e, es⟩ <;>
      rw [hferr] at hd
    · rcases hav : availabilityOfString st.fields.availability with _ | a <;>
        rw [hav] at hd
      · exact absurd hd (by simp)
      · have : d.featured = st.fields.featured.getD false := by
          cases hd; rfl
        rw [this, hf]
        rfl
    · exact absurd hd (by simp)

/-- Witness for C6: `badForm` trips every constrained field and blocks
the network; `goodForm`, with all optional fields absent, parses to a
record with `featured = false`. -/
theorem c6_validation_witness :
    ("year" ∈ fieldErrors badState.fields ∧
      handleSubmitPipeline badState = (badState, [])) ∧
    "title" ∈ fieldErrors badState.fields ∧
    "medium" ∈ fieldErrors badState.fields ∧
    "size" ∈ fieldErrors badState.fields ∧
    "availability" ∈ fieldErrors badState.fields ∧
    goodData.featured = false :=
  ⟨(c6_validation badState).1 (by decide),
   (c6_validation badState).2.1 rfl,
   (c6_validation badState).2.2.1 rfl,
   (c6_validation badState).2.2.2.1 rfl,
   (c6_validation badState).2.2.2.2.1 rfl,
   (c6_validation goodState).2.2.2.2.2.2 goodData rfl rfl⟩

/-- The parts that are appended to the `FormData` unconditionally. -/
def requiredParts (data : ArtworkUploadData) (image : UploadFile) :
    List FormPart :=
  [.filePart "image" image,
   .textPart "title" data.title,
   .textPart "year" (toString data.year),
   .textPart "medium" data.medium,
   .textPart "size" data.size,
   .textPart "availability" (availabilityToString data.availability),
   .textPart "featured" (if data.featured then "true" else "false")]

/-- Counterexample to C7: a validated submission whose (optional)
`description` and `tags` hold the form defaults `""`.  The multipart
body posted for it contains no `description` and no `tags` part at all —
the code appends them only when truthy — so the payload does not carry
all scalar fields. -/
theorem c7_counterexample :
    (buildFormData sampleData sampleImage).map FormPart.partName =
      ["image", "title", "year", "medium", "size", "availability",
       "featured"] ∧
    "description" ∉ (buildFormData sampleData sampleImage).map
      FormPart.partName ∧
    "tags" ∉ (buildFormData sampleData sampleImage).map FormPart.partName := by
  exact ⟨by decide, by decide, by decide⟩

/-- Claim C7 (amended): a submit with a selected file issues exactly one
POST to `/api/admin/paintings` whose multipart body always carries the
image binary and the `title`, `year`, `medium`, `size`, `availability`
and `featured` fields as text (numbers and booleans stringified), and
carries `description` and `tags` exactly when they are non-empty. -/
theorem c7_multipart_payload (st : ControllerState)
    (data : ArtworkUploadData) (file : UploadFile)
    (h : st.selectedFile = some file) :
    (onSubmit st data).2 =
      [Effect.networkPost "/api/admin/paintings" (buildFormData data file)] ∧
    (∀ p ∈ requiredParts data file, p ∈ buildFormData data file) ∧
    (strTruthy data.description = true →
      FormPart.textPart "description" (data.description.getD "") ∈
        buildFormData data file) ∧
    (strTruthy data.description = false →
      "description" ∉ (buildFormData data file).map FormPart.partName) ∧
    (strTruthy data.tags = true →
      FormPart.textPart "tags" (data.tags.getD "") ∈
        buildFormData data file) ∧
    (strTruthy data.tags = false →
      "tags" ∉ (buildFormData data file).map FormPart.partName) := by
  refine ⟨?_, fun p hp => ?_, fun hd => ?_, fun hd => ?_, fun ht => ?_,
    fun ht => ?_⟩
  · unfold onSubmit
    rw [h]
  · simp only [requiredParts, List.mem_cons, List.not_mem_nil, or_false] at hp
    rcases hp with hp | hp | hp | hp | hp | hp | hp <;> subst hp <;>
      simp [buildFormData]
  · simp [buildFormData, hd]
  · cases ht : strTruthy data.tags <;>
      simp [buildFormData, hd, ht, FormPart.partName]
  · simp [buildFormData, ht]
  · cases hd : strTruthy data.description <;>
      simp [buildFormData, hd, ht, FormPart.partName]

/-- Witness for C7 at a record with a non-empty description and empty
tags, submitted from a state holding a 2 MiB JPEG. -/
theorem c7_multipart_payload_witness :
    (onSubmit selectedState describedData).2 =
      [Effect.networkPost "/api/admin/paintings"
        (buildFormData describedData sampleImage)] ∧
    FormPart.textPart "description" (describedData.description.getD "") ∈
      buildFormData describedData sampleImage ∧
    "tags" ∉ (buildFormData describedData sampleImage).map FormPart.partName :=
  ⟨(c7_multipart_payload selectedState describedData sampleImage rfl).1,
   (c7_multipart_payload selectedState describedData sampleImage rfl).2.2.1
     (by decide),
   (c7_multipart_payload selectedState describedData sampleImage rfl).2.2.2.2.2
     (by decide)⟩

/-- Counterexample to C8: six messages arriving oldest-first.  The
panel shows `messages.slice(0, 5)` — the five oldest — omitting the
most recent message (`createdAt = 6`), and disagrees with the
sort-then-truncate reading of the spec. -/
theorem c8_counterexample :
    renderMessages unsortedMsgs = .shown (unsortedMsgs.take 5) ∧
    (∃ m ∈ unsortedMsgs, m.createdAt = 6) ∧
    ((unsortedMsgs.take 5).all fun m => m.createdAt != 6) = true ∧
    renderMessages unsortedMsgs ≠ renderMessagesSpec unsortedMsgs := by
  exact ⟨rfl, by decide, by decide, by decide⟩

/-- Claim C8 (amended): the messages card shows the empty state for a
zero-length list and otherwise the first five messages of the list in
server order, with no sorting; this coincides with the five most-recent
messages exactly when the server list is already sorted by `createdAt`
descending. -/
theorem c8_messages_first_five (messages : List ContactMessage) :
    (messages = [] → renderMessages messages = .emptyState) ∧
    (messages ≠ [] → renderMessages messages = .shown (messages.take 5)) ∧
    (List.Pairwise (fun a b => b.createdAt ≤ a.createdAt) messages →
      renderMessages messages = renderMessagesSpec messages) := by
  refine ⟨fun h => ?_, fun h => ?_, fun h => ?_⟩
  · subst h; rfl
  · unfold renderMessages
    rw [if_neg (by simpa using h)]
  · unfold renderMessages renderMessagesSpec
    rw [sortByCreatedAtDesc_of_sorted h]

/-- Witness for C8: the empty list, and a three-element list already
sorted newest-first. -/
theorem c8_messages_first_five_witness :
    renderMessages ([] : List ContactMessage) = .emptyState ∧
    renderMessages sortedMsgs = .shown (sortedMsgs.take 5) ∧
    renderMessages sortedMsgs = renderMessagesSpec sortedMsgs :=
  ⟨(c8_messages_first_five []).1 rfl,
   (c8_messages_first_five sortedMsgs).2.1 (by decide),
   (c8_messages_first_five sortedMsgs).2.2 (by decide)⟩

/-- Claim C9: along any sequence of submit-button and settlement events,
the mutation machine never has more than one request in flight — the
button is disabled while `isPending`, so a click during a pending
submission changes nothing. -/
theorem c9_no_concurrent_submissions (events : List SubmitEvent) :
    (runSubmits events).inFlight ≤ 1 ∧
    (∀ st : MutationState, st.isPending = true → submitStep st .click = st) := by
  constructor
  · have h := foldl_flight events mutationInit rfl
    unfold runSubmits
    rw [h]
    split <;> omega
  · intro st hp
    simp [submitStep, hp]

/-- Witness for C9: two immediate clicks start only one request, and a
click in a pending state is a no-op. -/
theorem c9_no_concurrent_submissions_witness :
    (runSubmits [SubmitEvent.click, SubmitEvent.click]).inFlight ≤ 1 ∧
    submitStep { isPending := true, inFlight := 1 } .click =
      { isPending := true, inFlight := 1 } :=
  ⟨(c9_no_concurrent_submissions [SubmitEvent.click, SubmitEvent.click]).1,
   (c9_no_concurrent_submissions [SubmitEvent.click, SubmitEvent.click]).2
     { isPending := true, inFlight := 1 } rfl⟩

end ArtistPortfolio
